import Mathlib

/-!
Shallow embedding of the Secure Terminal Control Plane of this repository:
the capability registry and gatekeeper bridge of src/src/_preload.js, and the
WebSocket gateway accept check and authentication handshake given as code in
src/SECURITY_FIXES.md.  Definitions are translated from the JavaScript source;
theorems settle the specified properties against them.
-/

namespace EdexUI

/-- Model of a JavaScript value as far as the bridge observes values: the
channel registry maps names to `true`, properties inherited from
`Object.prototype` are functions (or, for `__proto__`, an object), and a
lookup of an absent key yields `undefined`. -/
inductive JSValue where
  | undef
  | boolean (b : Bool)
  | jsFunction (name : String)
  | jsObject
deriving DecidableEq, Repr

/-- JavaScript truthiness for the values of the model: `undefined` and `false`
are falsy, functions and objects are truthy. -/
def jsTruthy : JSValue → Bool
  | .undef => false
  | .boolean b => b
  | .jsFunction _ => true
  | .jsObject => true

/-- Keys present on `Object.prototype`, hence reachable through property
lookup on any plain object literal. -/
def objectPrototypeKeys : List String :=
  ["constructor", "hasOwnProperty", "isPrototypeOf", "propertyIsEnumerable",
   "toLocaleString", "toString", "valueOf",
   "__defineGetter__", "__defineSetter__", "__lookupGetter__",
   "__lookupSetter__", "__proto__"]

/-- The seventeen whitelisted IPC channel names of `ALLOWED_CHANNELS` in
src/src/_preload.js lines 19 to 44. -/
def ALLOWED_CHANNEL_NAMES : List String :=
  ["terminal:execute", "terminal:resize", "terminal:kill",
   "terminal:data", "terminal:exit",
   "file:read", "file:write", "file:delete", "file:list", "file:stats",
   "system:info", "system:cwd", "system:env",
   "websocket:connect", "websocket:disconnect", "websocket:send",
   "websocket:message"]

/-- The object literal `ALLOWED_CHANNELS`: each whitelisted name is an own
property holding the value `true`. -/
def ALLOWED_CHANNELS : List (String × JSValue) :=
  ALLOWED_CHANNEL_NAMES.map (fun n => (n, JSValue.boolean true))

/-- Property lookup `obj[key]` on a plain object literal with own properties
`own`: an own property shadows the prototype; otherwise the lookup walks up to
`Object.prototype`; otherwise it yields `undefined`. -/
def objectGet (own : List (String × JSValue)) (key : String) : JSValue :=
  match own.lookup key with
  | some v => v
  | none =>
      if objectPrototypeKeys.contains key then
        if key = "__proto__" then JSValue.jsObject else JSValue.jsFunction key
      else JSValue.undef

/-- The membership check of `isChannelAllowed` (src/src/_preload.js line 52)
against a given registry object: `ALLOWED_CHANNELS[channel] === true`. -/
def isChannelAllowedIn (own : List (String × JSValue)) (channel : String) : Bool :=
  objectGet own channel == JSValue.boolean true

/-- `isChannelAllowed(channel)` of src/src/_preload.js lines 51 to 53,
consulting the module-level `ALLOWED_CHANNELS` object. -/
def isChannelAllowed (channel : String) : Bool :=
  isChannelAllowedIn ALLOWED_CHANNELS channel

/-- A listener registered on `ipcRenderer`.  Each call to `secureAPI.on` or
`secureAPI.once` wraps the user callback in a fresh closure; the `id` field
stands for the identity of that wrapped closure.  `isOnce` records whether the
listener was registered through `ipcRenderer.once`. -/
structure Listener where
  channel : String
  id : Nat
  isOnce : Bool
deriving DecidableEq, Repr

/-- The unsubscribe closure returned by `secureAPI.on`: it captures the
channel and the wrapped callback it will pass to
`ipcRenderer.removeListener`. -/
structure Unsub where
  channel : String
  id : Nat
deriving DecidableEq, Repr

/-- State of the renderer-side bridge: the `ALLOWED_CHANNELS` object as it
lives in the preload module, a counter supplying fresh closure identities, and
the listeners currently registered on `ipcRenderer`. -/
structure IpcState where
  allowedChannels : List (String × JSValue)
  nextId : Nat
  listeners : List Listener
deriving DecidableEq, Repr

/-- Bridge state right after the preload script runs. -/
def initState : IpcState :=
  { allowedChannels := ALLOWED_CHANNELS, nextId := 0, listeners := [] }

/-- A call into an `ipcRenderer` primitive, the only way a message crosses
the trust boundary. -/
inductive IpcCall where
  | sendCall (channel : String)
  | invokeCall (channel : String)
  | onCall (channel : String) (id : Nat)
  | onceCall (channel : String) (id : Nat)
  | removeListenerCall (channel : String) (id : Nat)
deriving DecidableEq, Repr

/-- The error thrown by the bridge on a non-whitelisted channel. -/
inductive BridgeError where
  | channelNotAllowed (channel : String)
deriving DecidableEq, Repr

/-- `secureAPI.send` (src/src/_preload.js lines 64 to 70): throws before any
`ipcRenderer` call when the channel is not whitelisted, otherwise performs
exactly one `ipcRenderer.send`.  The first component lists the `ipcRenderer`
calls the operation performed. -/
def secureAPI_send (channel : String) (s : IpcState) :
    List IpcCall × Except BridgeError IpcState :=
  if !(isChannelAllowedIn s.allowedChannels channel) then
    ([], .error (.channelNotAllowed channel))
  else
    ([.sendCall channel], .ok s)

/-- `secureAPI.invoke` (src/src/_preload.js lines 76 to 82): same check, then
one `ipcRenderer.invoke`. -/
def secureAPI_invoke (channel : String) (s : IpcState) :
    List IpcCall × Except BridgeError IpcState :=
  if !(isChannelAllowedIn s.allowedChannels channel) then
    ([], .error (.channelNotAllowed channel))
  else
    ([.invokeCall channel], .ok s)

/-- `secureAPI.on` (src/src/_preload.js lines 88 to 106): after the check it
wraps the callback in a fresh closure, registers it via `ipcRenderer.on`, and
returns the closure that will remove exactly that wrapped callback. -/
def secureAPI_on (channel : String) (s : IpcState) :
    List IpcCall × Except BridgeError (IpcState × Unsub) :=
  if !(isChannelAllowedIn s.allowedChannels channel) then
    ([], .error (.channelNotAllowed channel))
  else
    ([.onCall channel s.nextId],
     .ok ({ s with
              nextId := s.nextId + 1,
              listeners := s.listeners ++
                [{ channel := channel, id := s.nextId, isOnce := false }] },
          { channel := channel, id := s.nextId }))

/-- `secureAPI.once` (src/src/_preload.js lines 111 to 120): after the check
it registers a fresh wrapped callback via `ipcRenderer.once`.  The body has no
return statement, so the JavaScript function returns `undefined`: the returned
handle component is `none`. -/
def secureAPI_once (channel : String) (s : IpcState) :
    List IpcCall × Except BridgeError (IpcState × Option Unsub) :=
  if !(isChannelAllowedIn s.allowedChannels channel) then
    ([], .error (.channelNotAllowed channel))
  else
    ([.onceCall channel s.nextId],
     .ok ({ s with
              nextId := s.nextId + 1,
              listeners := s.listeners ++
                [{ channel := channel, id := s.nextId, isOnce := true }] },
          (none : Option Unsub)))

/-- The bridge state produced by a successful `secureAPI.once` call. -/
def onceState (channel : String) (s : IpcState) : IpcState :=
  { s with
      nextId := s.nextId + 1,
      listeners := s.listeners ++
        [{ channel := channel, id := s.nextId, isOnce := true }] }

/-- `ipcRenderer.removeListener(channel, f)` as implemented by the Node
`EventEmitter`: it removes at most one listener, the most recently registered
one whose channel and callback identity both match. -/
def removeListenerList (ls : List Listener) (ch : String) (id : Nat) :
    List Listener :=
  ((ls.reverse).eraseP (fun l => l.channel == ch && l.id == id)).reverse

/-- Invoking the unsubscribe closure returned by `secureAPI.on`
(src/src/_preload.js lines 103 to 105). -/
def applyUnsub (u : Unsub) (s : IpcState) : List IpcCall × IpcState :=
  ([.removeListenerCall u.channel u.id],
   { s with listeners := removeListenerList s.listeners u.channel u.id })

/-- Delivery of one main-process message on a channel: every listener
registered on that channel fires in registration order, and listeners
registered through `ipcRenderer.once` are removed at their first delivery.
The second component lists the identities of the fired listeners. -/
def deliver (ch : String) (s : IpcState) : IpcState × List Nat :=
  ({ s with
       listeners := s.listeners.filter (fun l => !(l.channel == ch && l.isOnce)) },
   (s.listeners.filter (fun l => l.channel == ch)).map Listener.id)

/-- A sequence of message deliveries, accumulating the fired listener
identities. -/
def deliverSeq (chs : List String) (s : IpcState) : IpcState × List Nat :=
  match chs with
  | [] => (s, [])
  | ch :: rest =>
      ((deliverSeq rest (deliver ch s).1).1,
       (deliver ch s).2 ++ (deliverSeq rest (deliver ch s).1).2)

/-- Any event the bridge state can undergo during an execution: the four
`secureAPI` operations, invoking a returned unsubscribe closure, or a message
delivery from the main process. -/
inductive BridgeOp where
  | sendOp (channel : String)
  | invokeOp (channel : String)
  | onOp (channel : String)
  | onceOp (channel : String)
  | unsubOp (u : Unsub)
  | deliverOp (channel : String)
deriving DecidableEq, Repr

/-- State transition of one bridge event (a rejected operation leaves the
state unchanged). -/
def stepOp (op : BridgeOp) (s : IpcState) : IpcState :=
  match op with
  | .sendOp ch =>
      match (secureAPI_send ch s).2 with
      | .ok s₁ => s₁
      | .error _ => s
  | .invokeOp ch =>
      match (secureAPI_invoke ch s).2 with
      | .ok s₁ => s₁
      | .error _ => s
  | .onOp ch =>
      match (secureAPI_on ch s).2 with
      | .ok p => p.1
      | .error _ => s
  | .onceOp ch =>
      match (secureAPI_once ch s).2 with
      | .ok p => p.1
      | .error _ => s
  | .unsubOp u => (applyUnsub u s).2
  | .deliverOp ch => (deliver ch s).1

/-- Running a whole sequence of bridge events. -/
def runOps (ops : List BridgeOp) (s : IpcState) : IpcState :=
  match ops with
  | [] => s
  | op :: rest => runOps rest (stepOp op s)

/-- Character-list core of the prefix test used by
`String.prototype.startsWith`. -/
def charsStartWith : List Char → List Char → Bool
  | _, [] => true
  | [], _ :: _ => false
  | c :: cs, d :: ds => c == d && charsStartWith cs ds

/-- JavaScript `s.startsWith(p)`: the characters of `p` are an initial
segment of the characters of `s`. -/
def jsStartsWith (s p : String) : Bool :=
  charsStartWith s.data p.data

/-- JavaScript truthiness of a possibly absent string: `undefined` and the
empty string are falsy. -/
def jsTruthyString : Option String → Option String
  | none => none
  | some s => if s = "" then none else some s

/-- The `allowedOrigins` array of the `verifyClient` fix
(src/SECURITY_FIXES.md lines 50 to 61).  `port` is the listener port already
rendered in decimal, as the JavaScript template literal interpolates it. -/
def allowedOrigins (port : String) : List String :=
  ["http://localhost", "http://127.0.0.1",
   "https://localhost", "https://127.0.0.1",
   "http://localhost:" ++ port, "http://127.0.0.1:" ++ port,
   "https://localhost:" ++ port, "https://127.0.0.1:" ++ port,
   "file://", "app://"]

/-- The `verifyClient` callback of the WebSocket gateway
(src/SECURITY_FIXES.md lines 48 to 91).  `clientCount` is
`this.wss.clients.length`, the number of connections currently occupying a
non-Closed state; `originHeader` is `info.origin || info.req.headers.origin`
and `hostHeader` is `info.req.headers.host`, each `none` when the header is
absent. -/
def verifyClient (port : String) (clientCount : Nat)
    (originHeader hostHeader : Option String) : Bool :=
  if 1 ≤ clientCount then false
  else
    match jsTruthyString originHeader with
    | none =>
        match jsTruthyString hostHeader with
        | some host =>
            jsStartsWith host "localhost" || jsStartsWith host "127.0.0.1"
        | none => false
    | some origin =>
        (allowedOrigins port).any (fun a => jsStartsWith origin a)

/-- State of one accepted gateway connection during the authentication
handshake of src/SECURITY_FIXES.md lines 185 to 208: the `authenticated`
flag, whether the 5000 ms `authTimeout` timer is still pending, how many
times `clearTimeout` ran, and the code and reason of the first `ws.close`
call, if any. -/
structure ConnState where
  authenticated : Bool
  timerPending : Bool
  clearTimeoutCalls : Nat
  closedWith : Option (Nat × String)
deriving DecidableEq, Repr

/-- Connection state right after `wss.on('connection')` runs: not
authenticated, the auth deadline timer armed, the socket open. -/
def initConn : ConnState :=
  { authenticated := false, timerPending := true,
    clearTimeoutCalls := 0, closedWith := none }

/-- `ws.close(code, reason)`: closing an already closed socket is a no-op, so
only the first close code sticks. -/
def wsClose (code : Nat) (reason : String) (s : ConnState) : ConnState :=
  match s.closedWith with
  | some _ => s
  | none => { s with closedWith := some (code, reason) }

/-- `clearTimeout(authTimeout)`: the pending deadline timer is disarmed. -/
def clearAuthTimeout (s : ConnState) : ConnState :=
  { s with timerPending := false, clearTimeoutCalls := s.clearTimeoutCalls + 1 }

/-- The authentication deadline in milliseconds (the second argument of
`setTimeout` in src/SECURITY_FIXES.md line 192). -/
def authTimeoutMs : Nat := 5000

/-- The first inbound message as the handshake handler sees it:
`JSON.parse` either throws, or yields an object whose `authToken` field is a
string or absent. -/
inductive FirstMessage where
  | malformed
  | parsed (authToken : Option String)
deriving DecidableEq, Repr

/-- The `ws.once('message')` handler of src/SECURITY_FIXES.md lines 194 to
208, run on the first inbound message.  A parse failure closes with 4400; a
payload whose `authToken` field differs from the shared secret closes with
4403; a matching token sets `authenticated` and cancels the deadline timer,
leaving the socket open. -/
def onFirstMessage (wsAuthToken : String) (m : FirstMessage) (s : ConnState) :
    ConnState :=
  match m with
  | .malformed => wsClose 4400 "Invalid message format" s
  | .parsed tok =>
      if tok = some wsAuthToken then
        clearAuthTimeout { s with authenticated := true }
      else
        wsClose 4403 "Invalid auth token" s

/-- The `setTimeout` callback of src/SECURITY_FIXES.md lines 188 to 192,
run when the 5000 ms deadline elapses with the timer still armed: if the
connection is not authenticated it is closed with 4401. -/
def onAuthTimerFire (s : ConnState) : ConnState :=
  if s.timerPending then
    let s₁ := { s with timerPending := false }
    if s₁.authenticated = false then
      wsClose 4401 "Authentication timeout" s₁
    else s₁
  else s

/-- A concrete bridge state with two live listeners, used to instantiate the
unsubscribe theorem. -/
def twoListenerState : IpcState :=
  { allowedChannels := ALLOWED_CHANNELS, nextId := 2,
    listeners := [{ channel := "terminal:data", id := 0, isOnce := false },
                  { channel := "terminal:exit", id := 1, isOnce := false }] }

theorem isChannelAllowedIn_names (names : List String) (ch : String) :
    isChannelAllowedIn (names.map (fun n => (n, JSValue.boolean true))) ch
      = names.contains ch := by
  induction names with
  | nil =>
      show isChannelAllowedIn [] ch = false
      simp only [isChannelAllowedIn, objectGet, List.lookup]
      split
      · split <;> rfl
      · rfl
  | cons n ns ih =>
      by_cases h : ch = n
      · simp [isChannelAllowedIn, objectGet, List.lookup, List.contains,
          List.elem, h]
      · have hb : (ch == n) = false := by simpa using h
        simpa [isChannelAllowedIn, objectGet, List.lookup, List.contains,
          List.elem, hb] using ih

theorem isChannelAllowed_eq_contains (ch : String) :
    isChannelAllowed ch = ALLOWED_CHANNEL_NAMES.contains ch := by
  simpa [isChannelAllowed, ALLOWED_CHANNELS] using
    isChannelAllowedIn_names ALLOWED_CHANNEL_NAMES ch

/-- C10: `isChannelAllowed` returns `true` exactly for the seventeen names
enumerated in `ALLOWED_CHANNELS` and `false` for every other string; names
inherited from `Object.prototype` such as `toString`, `constructor` and
`hasOwnProperty` look up to truthy values yet are rejected, because the check
demands the looked-up value to be the boolean `true`. -/
theorem isChannelAllowed_exactly_seventeen :
    ALLOWED_CHANNEL_NAMES.length = 17 ∧
    (∀ ch : String, isChannelAllowed ch = ALLOWED_CHANNEL_NAMES.contains ch) ∧
    (isChannelAllowed "toString" = false ∧
      jsTruthy (objectGet ALLOWED_CHANNELS "toString") = true) ∧
    (isChannelAllowed "constructor" = false ∧
      jsTruthy (objectGet ALLOWED_CHANNELS "constructor") = true) ∧
    (isChannelAllowed "hasOwnProperty" = false ∧
      jsTruthy (objectGet ALLOWED_CHANNELS "hasOwnProperty") = true) := by
  refine ⟨by decide, isChannelAllowed_eq_contains, ?_, ?_, ?_⟩ <;>
    exact ⟨by decide, by decide⟩

/-- C1: for every capability name not in the registry, each of the four
bridge operations throws with an empty `ipcRenderer` call trace: the error is
raised strictly before any cross-boundary transmission, so no `ipcRenderer`
primitive is ever called with that channel and the back end never observes
the request. -/
theorem bridge_rejects_unregistered_before_ipc (channel : String) (s : IpcState)
    (h : isChannelAllowedIn s.allowedChannels channel = false) :
    secureAPI_send channel s = ([], .error (.channelNotAllowed channel)) ∧
    secureAPI_invoke channel s = ([], .error (.channelNotAllowed channel)) ∧
    secureAPI_on channel s = ([], .error (.channelNotAllowed channel)) ∧
    secureAPI_once channel s = ([], .error (.channelNotAllowed channel)) := by
  refine ⟨?_, ?_, ?_, ?_⟩ <;>
    simp [secureAPI_send, secureAPI_invoke, secureAPI_on, secureAPI_once, h]

theorem bridge_rejects_unregistered_before_ipc_witness :
    isChannelAllowedIn initState.allowedChannels "shell:run" = false ∧
    (secureAPI_send "shell:run" initState
        = ([], .error (.channelNotAllowed "shell:run")) ∧
      secureAPI_invoke "shell:run" initState
        = ([], .error (.channelNotAllowed "shell:run")) ∧
      secureAPI_on "shell:run" initState
        = ([], .error (.channelNotAllowed "shell:run")) ∧
      secureAPI_once "shell:run" initState
        = ([], .error (.channelNotAllowed "shell:run"))) :=
  ⟨by decide,
   bridge_rejects_unregistered_before_ipc "shell:run" initState (by decide)⟩

theorem stepOp_allowedChannels (op : BridgeOp) (s : IpcState) :
    (stepOp op s).allowedChannels = s.allowedChannels := by
  cases op with
  | sendOp ch =>
      cases hc : isChannelAllowedIn s.allowedChannels ch <;>
        simp [stepOp, secureAPI_send, hc]
  | invokeOp ch =>
      cases hc : isChannelAllowedIn s.allowedChannels ch <;>
        simp [stepOp, secureAPI_invoke, hc]
  | onOp ch =>
      cases hc : isChannelAllowedIn s.allowedChannels ch <;>
        simp [stepOp, secureAPI_on, hc]
  | onceOp ch =>
      cases hc : isChannelAllowedIn s.allowedChannels ch <;>
        simp [stepOp, secureAPI_once, hc]
  | unsubOp u => simp [stepOp, applyUnsub]
  | deliverOp ch => simp [stepOp, deliver]

theorem runOps_allowedChannels (ops : List BridgeOp) :
    ∀ s : IpcState, (runOps ops s).allowedChannels = s.allowedChannels := by
  induction ops with
  | nil => intro s; rfl
  | cons op rest ih =>
      intro s
      calc (runOps rest (stepOp op s)).allowedChannels
          = (stepOp op s).allowedChannels := ih (stepOp op s)
        _ = s.allowedChannels := stepOp_allowedChannels op s

/-- C6: the registry object is fixed at initialization.  No sequence of
bridge events ever changes the `ALLOWED_CHANNELS` object, so the membership
check gives the same answer for the same name at every point of every
execution, namely the answer of the pure total function `isChannelAllowed`. -/
theorem registry_fixed_after_startup (ops : List BridgeOp) (ch : String) :
    (runOps ops initState).allowedChannels = ALLOWED_CHANNELS ∧
    isChannelAllowedIn (runOps ops initState).allowedChannels ch
      = isChannelAllowed ch := by
  have h := runOps_allowedChannels ops initState
  exact ⟨h, by rw [h]; rfl⟩

/-- C2: while any connection occupies a non-Closed state (it is then counted
in `wss.clients`), `verifyClient` rejects every further accept attempt before
inspecting anything else: the rejection is independent of the attempt origin,
host, port, and of any credentials it would later have presented. -/
theorem second_accept_rejected_unconditionally (port : String)
    (clientCount : Nat) (originHeader hostHeader : Option String)
    (h : 1 ≤ clientCount) :
    verifyClient port clientCount originHeader hostHeader = false := by
  simp [verifyClient, h]

theorem second_accept_rejected_unconditionally_witness :
    1 ≤ 1 ∧
    verifyClient "3000" 1 (some "http://localhost:3000") (some "localhost:3000")
      = false :=
  ⟨by decide,
   second_accept_rejected_unconditionally "3000" 1
     (some "http://localhost:3000") (some "localhost:3000") (by decide)⟩

/-- C3 is false on the code: the origin check uses
`origin.startsWith(allowedOrigin)`, a prefix test, not a case-sensitive match
of the full value.  The origin `http://localhost.attacker.example` begins with
the allowlisted entry `http://localhost`, so `verifyClient` accepts it even
though it is not a loopback origin; the claim says every such origin is
rejected.  (The claim is right that `http://attacker.example` is rejected.) -/
theorem verifyClient_accepts_lookalike_origin :
    verifyClient "3000" 0 (some "http://localhost.attacker.example") none = true ∧
    verifyClient "3000" 0 (some "http://attacker.example") none = false := by
  exact ⟨by decide, by decide⟩

/-- C4 is false on the code: in the no-origin branch the host check uses
`host.startsWith('localhost')`, so the non-loopback host
`localhost.attacker.example` is accepted with no origin present, where the
claim requires a host resolving to a loopback name.  (The claim is right that
an attempt with neither origin nor host is rejected.) -/
theorem verifyClient_accepts_lookalike_host :
    verifyClient "3000" 0 none (some "localhost.attacker.example") = true ∧
    verifyClient "3000" 0 none none = false := by
  exact ⟨by decide, by decide⟩

/-- C5: after acceptance, the first inbound message must carry the shared
token within the 5000 ms deadline, and each failure closes the socket with its
own distinct code: the deadline elapsing with no message closes with 4401, a
parsed message with a mismatched (or missing) token closes with 4403, an
unparseable message closes with 4400, and a matching token leaves the socket
open and authenticated.  A connection that never sends a handshake is closed
by the timer, not left open. -/
theorem handshake_outcomes (wsAuthToken bad : String)
    (hbad : bad ≠ wsAuthToken) :
    authTimeoutMs = 5000 ∧
    (onAuthTimerFire initConn).closedWith
      = some (4401, "Authentication timeout") ∧
    (onFirstMessage wsAuthToken .malformed initConn).closedWith
      = some (4400, "Invalid message format") ∧
    (onFirstMessage wsAuthToken (.parsed (some bad)) initConn).closedWith
      = some (4403, "Invalid auth token") ∧
    (onFirstMessage wsAuthToken (.parsed none) initConn).closedWith
      = some (4403, "Invalid auth token") ∧
    (onFirstMessage wsAuthToken (.parsed (some wsAuthToken)) initConn).closedWith
      = none ∧
    (onFirstMessage wsAuthToken (.parsed (some wsAuthToken)) initConn).authenticated
      = true ∧
    ((4401 : Nat) ≠ 4403 ∧ (4401 : Nat) ≠ 4400 ∧ (4403 : Nat) ≠ 4400) := by
  refine ⟨rfl, by decide, ?_, ?_, ?_, ?_, ?_, by decide⟩
  · simp [onFirstMessage, wsClose, initConn]
  · simp [onFirstMessage, wsClose, initConn, hbad]
  · simp [onFirstMessage, wsClose, initConn]
  · simp [onFirstMessage, clearAuthTimeout, initConn]
  · simp [onFirstMessage, clearAuthTimeout, initConn]

theorem handshake_outcomes_witness :
    ("b" : String) ≠ "a" ∧
    (authTimeoutMs = 5000 ∧
      (onAuthTimerFire initConn).closedWith
        = some (4401, "Authentication timeout") ∧
      (onFirstMessage "a" .malformed initConn).closedWith
        = some (4400, "Invalid message format") ∧
      (onFirstMessage "a" (.parsed (some "b")) initConn).closedWith
        = some (4403, "Invalid auth token") ∧
      (onFirstMessage "a" (.parsed none) initConn).closedWith
        = some (4403, "Invalid auth token") ∧
      (onFirstMessage "a" (.parsed (some "a")) initConn).closedWith = none ∧
      (onFirstMessage "a" (.parsed (some "a")) initConn).authenticated = true ∧
      ((4401 : Nat) ≠ 4403 ∧ (4401 : Nat) ≠ 4400 ∧ (4403 : Nat) ≠ 4400)) :=
  ⟨by decide, handshake_outcomes "a" "b" (by decide)⟩

/-- C9 is false on the code: on the invalid-credential transition out of
AwaitingAuth the handler closes the socket with 4403 but never calls
`clearTimeout`, so the deadline timer is cancelled zero times, not exactly
once, and is still pending after the connection has left AwaitingAuth. -/
theorem failed_handshake_leaves_timer_pending :
    (onFirstMessage "token" (.parsed (some "wrong")) initConn).closedWith
      = some (4403, "Invalid auth token") ∧
    (onFirstMessage "token" (.parsed (some "wrong")) initConn).clearTimeoutCalls
      = 0 ∧
    (onFirstMessage "token" (.parsed (some "wrong")) initConn).timerPending
      = true := by
  exact ⟨by decide, by decide, by decide⟩

/-- C9 amended: the deadline timer is cancelled exactly once on the
successful-authentication transition out of AwaitingAuth and zero times on
the failure transitions; an authenticated connection never has a pending
timer, and a timer that fires after the first message was handled never
changes the close status of the connection — in particular the stale timer
left pending by a failed handshake can only re-close an already closed
socket, and on an authenticated (Active) connection the timer callback is a
no-op. -/
theorem auth_timer_cancellation (wsAuthToken : String) (m : FirstMessage) :
    ((onFirstMessage wsAuthToken m initConn).clearTimeoutCalls
      = if m = FirstMessage.parsed (some wsAuthToken) then 1 else 0) ∧
    ((onFirstMessage wsAuthToken m initConn).authenticated
        && (onFirstMessage wsAuthToken m initConn).timerPending) = false ∧
    (onAuthTimerFire (onFirstMessage wsAuthToken m initConn)).closedWith
      = (onFirstMessage wsAuthToken m initConn).closedWith ∧
    onAuthTimerFire
        (onFirstMessage wsAuthToken (.parsed (some wsAuthToken)) initConn)
      = onFirstMessage wsAuthToken (.parsed (some wsAuthToken)) initConn := by
  have h4 : onAuthTimerFire
      (onFirstMessage wsAuthToken (.parsed (some wsAuthToken)) initConn)
      = onFirstMessage wsAuthToken (.parsed (some wsAuthToken)) initConn := by
    simp [onFirstMessage, clearAuthTimeout, onAuthTimerFire, initConn]
  refine ⟨?_, ?_, ?_, h4⟩ <;>
  · cases m with
    | malformed =>
        simp [onFirstMessage, wsClose, initConn, onAuthTimerFire]
    | parsed tok =>
        by_cases h : tok = some wsAuthToken <;>
          simp [onFirstMessage, wsClose, clearAuthTimeout, initConn,
            onAuthTimerFire, h]

theorem eraseP_eq_filter_not {α : Type} (p : α → Bool) (l : List α)
    (h : l.countP p ≤ 1) : l.eraseP p = l.filter (fun a => !p a) := by
  induction l with
  | nil => rfl
  | cons a l ih =>
      by_cases hp : p a = true
      · have h1 : (a :: l).countP p = l.countP p + 1 := by
          simp [List.countP_cons, hp]
        rw [h1] at h
        have hz : l.countP p = 0 := by omega
        rw [List.eraseP_cons_of_pos hp]
        have hself : l.filter (fun a => !p a) = l :=
          List.filter_eq_self.mpr (fun x hx => by
            have hx0 := List.countP_eq_zero.mp hz x hx
            simp [Bool.not_eq_true] at hx0 ⊢
            exact hx0)
        simp [List.filter_cons, hp, hself]
      · have h1 : (a :: l).countP p = l.countP p := by
          simp [List.countP_cons, hp]
        rw [h1] at h
        rw [List.eraseP_cons_of_neg hp]
        rw [ih h]
        simp [List.filter_cons, hp]

theorem countP_match_le_one (ch : String) (i : Nat) :
    ∀ ls : List Listener, ls.Pairwise (fun a b => a.id ≠ b.id) →
      ls.countP (fun l => l.channel == ch && l.id == i) ≤ 1 := by
  intro ls
  induction ls with
  | nil => intro _; simp
  | cons a ls ih =>
      intro h
      rw [List.pairwise_cons] at h
      obtain ⟨ha, hls⟩ := h
      rw [List.countP_cons]
      by_cases hp : (a.channel == ch && a.id == i) = true
      · have haid : a.id = i := by
          have := (Bool.and_eq_true _ _).mp hp
          simpa using this.2
        have hz : ls.countP (fun l => l.channel == ch && l.id == i) = 0 := by
          rw [List.countP_eq_zero]
          intro b hb hpb
          have hbid : b.id = i := by
            have := (Bool.and_eq_true _ _).mp hpb
            simpa using this.2
          exact ha b hb (haid.trans hbid.symm)
        simp [hz, hp]
      · have h0 : (if (a.channel == ch && a.id == i) = true then 1 else 0) = 0 :=
          by simp [hp]
        rw [h0]
        simpa using ih hls

theorem removeListenerList_eq_filter (ls : List Listener) (ch : String)
    (i : Nat) (h : ls.Pairwise (fun a b => a.id ≠ b.id)) :
    removeListenerList ls ch i
      = ls.filter (fun l => !(l.channel == ch && l.id == i)) := by
  have hrev : ls.reverse.Pairwise (fun a b => a.id ≠ b.id) :=
    List.pairwise_reverse.mpr (h.imp fun hab => hab.symm)
  unfold removeListenerList
  rw [eraseP_eq_filter_not _ _ (countP_match_le_one ch i ls.reverse hrev),
    List.filter_reverse, List.reverse_reverse]

theorem removeListenerList_append_last (ls : List Listener) (ch : String)
    (i : Nat) (o : Bool) :
    removeListenerList (ls ++ [{ channel := ch, id := i, isOnce := o }]) ch i
      = ls := by
  unfold removeListenerList
  rw [List.reverse_append]
  simp only [List.reverse_cons, List.reverse_nil, List.nil_append,
    List.singleton_append]
  rw [List.eraseP_cons_of_pos (by simp)]
  exact List.reverse_reverse ls

/-- C7: for every registered capability, `secureAPI.on` succeeds, registers
one fresh listener and returns the unsubscribe closure for exactly that
listener.  Invoking the closure right away undoes exactly the registration
(the listener list returns to what it was), and invoking it against any later
listener list with distinct closure identities removes precisely the
listeners matching this closure and keeps every other listener, those of
other `on` calls on the same or different capabilities included. -/
theorem on_returns_exact_unsubscribe (channel : String) (s t : IpcState)
    (hch : isChannelAllowedIn s.allowedChannels channel = true)
    (ht : t.listeners.Pairwise (fun a b => a.id ≠ b.id)) :
    secureAPI_on channel s =
      ([.onCall channel s.nextId],
       .ok ({ s with
                nextId := s.nextId + 1,
                listeners := s.listeners ++
                  [{ channel := channel, id := s.nextId, isOnce := false }] },
            { channel := channel, id := s.nextId })) ∧
    (applyUnsub { channel := channel, id := s.nextId }
        { s with
            nextId := s.nextId + 1,
            listeners := s.listeners ++
              [{ channel := channel, id := s.nextId, isOnce := false }] }).2.listeners
      = s.listeners ∧
    (applyUnsub { channel := channel, id := s.nextId } t).2.listeners
      = t.listeners.filter
          (fun l => !(l.channel == channel && l.id == s.nextId)) := by
  refine ⟨by simp [secureAPI_on, hch], ?_, ?_⟩
  · show removeListenerList
        (s.listeners ++ [{ channel := channel, id := s.nextId, isOnce := false }])
        channel s.nextId = s.listeners
    exact removeListenerList_append_last s.listeners channel s.nextId false
  · exact removeListenerList_eq_filter t.listeners channel s.nextId ht

theorem on_returns_exact_unsubscribe_witness :
    (isChannelAllowedIn initState.allowedChannels "terminal:data" = true ∧
      twoListenerState.listeners.Pairwise (fun a b => a.id ≠ b.id)) ∧
    (secureAPI_on "terminal:data" initState =
        ([.onCall "terminal:data" initState.nextId],
         .ok ({ initState with
                  nextId := initState.nextId + 1,
                  listeners := initState.listeners ++
                    [{ channel := "terminal:data", id := initState.nextId,
                       isOnce := false }] },
              { channel := "terminal:data", id := initState.nextId })) ∧
      (applyUnsub { channel := "terminal:data", id := initState.nextId }
          { initState with
              nextId := initState.nextId + 1,
              listeners := initState.listeners ++
                [{ channel := "terminal:data", id := initState.nextId,
                   isOnce := false }] }).2.listeners
        = initState.listeners ∧
      (applyUnsub { channel := "terminal:data", id := initState.nextId }
          twoListenerState).2.listeners
        = twoListenerState.listeners.filter
            (fun l => !(l.channel == "terminal:data" && l.id == initState.nextId))) :=
  ⟨⟨by decide, by decide⟩,
   on_returns_exact_unsubscribe "terminal:data" initState twoListenerState
     (by decide) (by decide)⟩

/-- C8 counterexample: `secureAPI.once` ends without a return statement, so
its JavaScript value is `undefined`: the subscription it creates is not
returned as a cancellable handle (the handle component of the result is
`none`), unlike `secureAPI.on`.  Shown here at the registered capability
`terminal:data` on the initial bridge state. -/
theorem once_returns_no_handle :
    secureAPI_once "terminal:data" initState =
      ([IpcCall.onceCall "terminal:data" 0],
       Except.ok
         ({ allowedChannels := ALLOWED_CHANNELS, nextId := 1,
            listeners := [{ channel := "terminal:data", id := 0, isOnce := true }] },
          (none : Option Unsub))) := by
  rfl

theorem countP_add_le_of_pointwise {α : Type} (p₁ p₂ p₃ : α → Bool) :
    ∀ l : List α,
      (∀ x ∈ l,
        (if p₁ x = true then 1 else 0) + (if p₂ x = true then 1 else 0)
          ≤ (if p₃ x = true then (1 : Nat) else 0)) →
      l.countP p₁ + l.countP p₂ ≤ l.countP p₃ := by
  intro l
  induction l with
  | nil => intro _; simp
  | cons a l ih =>
      intro H
      have ha := H a (List.mem_cons_self a l)
      have hrec := ih (fun x hx => H x (List.mem_cons_of_mem a hx))
      rw [List.countP_cons, List.countP_cons, List.countP_cons]
      cases h1 : p₁ a <;> cases h2 : p₂ a <;> cases h3 : p₃ a <;>
        simp [h1, h2, h3] at ha ⊢ <;> omega

theorem countP_split_once (ch : String) (i : Nat) (ls : List Listener)
    (H : ∀ l ∈ ls, l.id = i → l.isOnce = true) :
    ls.countP (fun l => (l.id == i) && (l.channel == ch))
        + ls.countP (fun l => (l.id == i) && !(l.channel == ch && l.isOnce))
      ≤ ls.countP (fun l => l.id == i) := by
  apply countP_add_le_of_pointwise
  intro x hx
  by_cases hid : x.id = i
  · have honce : x.isOnce = true := H x hx hid
    by_cases hch2 : x.channel = ch <;> simp [hid, hch2, honce]
  · simp [hid]

theorem deliver_fired_count (ch : String) (i : Nat) (s : IpcState) :
    (deliver ch s).2.count i
      = s.listeners.countP (fun l => (l.id == i) && (l.channel == ch)) := by
  simp only [deliver, List.count_eq_countP, List.countP_map, List.countP_filter]
  rfl

theorem deliver_remaining_count (ch : String) (i : Nat) (s : IpcState) :
    (deliver ch s).1.listeners.countP (fun l => l.id == i)
      = s.listeners.countP
          (fun l => (l.id == i) && !(l.channel == ch && l.isOnce)) := by
  simp only [deliver, List.countP_filter]

theorem deliverSeq_count_le (i : Nat) (chs : List String) :
    ∀ s : IpcState, (∀ l ∈ s.listeners, l.id = i → l.isOnce = true) →
      (deliverSeq chs s).2.count i
        ≤ s.listeners.countP (fun l => l.id == i) := by
  induction chs with
  | nil => intro s H; simp [deliverSeq]
  | cons ch rest ih =>
      intro s H
      have H' : ∀ l ∈ (deliver ch s).1.listeners, l.id = i → l.isOnce = true :=
        fun l hl => H l (List.mem_of_mem_filter hl)
      have h2 := ih (deliver ch s).1 H'
      have h1 := deliver_fired_count ch i s
      have h3 := deliver_remaining_count ch i s
      have h4 := countP_split_once ch i s.listeners H
      show ((deliver ch s).2 ++ (deliverSeq rest (deliver ch s).1).2).count i
        ≤ s.listeners.countP (fun l => l.id == i)
      rw [List.count_append]
      omega

/-- C8 amended: for every registered capability, `secureAPI.once` succeeds
and registers a self-removing listener: across any sequence of subsequent
deliveries the wrapped callback fires at most once, and after a delivery on
its capability the listener is no longer registered.  However, unlike `on`,
`once` returns no cancellable handle (its result carries `none`), so the
subscription cannot be destroyed by explicit cancellation through a returned
handle — only by its first delivery. -/
theorem once_self_removes_after_first_delivery (channel : String)
    (s : IpcState) (chs : List String)
    (hch : isChannelAllowedIn s.allowedChannels channel = true)
    (hfresh : ∀ l ∈ s.listeners, l.id < s.nextId) :
    secureAPI_once channel s
      = ([.onceCall channel s.nextId],
         .ok (onceState channel s, (none : Option Unsub))) ∧
    ({ channel := channel, id := s.nextId, isOnce := true } : Listener)
      ∈ (onceState channel s).listeners ∧
    (deliverSeq chs (onceState channel s)).2.count s.nextId ≤ 1 ∧
    (deliver channel (onceState channel s)).1.listeners.countP
      (fun l => l.id == s.nextId) = 0 := by
  refine ⟨by simp [secureAPI_once, hch, onceState], by simp [onceState], ?_, ?_⟩
  · have H : ∀ l ∈ (onceState channel s).listeners,
        l.id = s.nextId → l.isOnce = true := by
      intro l hl hid
      rcases List.mem_append.mp hl with hin | hin
      · exact absurd hid (Nat.ne_of_lt (hfresh l hin))
      · rw [List.mem_singleton.mp hin]
    have hbound := deliverSeq_count_le s.nextId chs (onceState channel s) H
    have hcount : (onceState channel s).listeners.countP
        (fun l => l.id == s.nextId) = 1 := by
      show (s.listeners ++ _).countP _ = 1
      rw [List.countP_append]
      have h0 : s.listeners.countP (fun l => l.id == s.nextId) = 0 :=
        List.countP_eq_zero.mpr (fun l hl => by
          simpa using Nat.ne_of_lt (hfresh l hl))
      simp [h0]
    omega
  · rw [deliver_remaining_count]
    show (s.listeners ++
        [({ channel := channel, id := s.nextId, isOnce := true } : Listener)]).countP
        (fun l => (l.id == s.nextId) && !(l.channel == channel && l.isOnce)) = 0
    rw [List.countP_append]
    have h0 : s.listeners.countP
        (fun l => (l.id == s.nextId) && !(l.channel == channel && l.isOnce))
        = 0 :=
      List.countP_eq_zero.mpr (fun l hl => by
        have := Nat.ne_of_lt (hfresh l hl)
        simp [this])
    rw [h0]
    simp

theorem once_self_removes_after_first_delivery_witness :
    (isChannelAllowedIn initState.allowedChannels "terminal:data" = true ∧
      (∀ l ∈ initState.listeners, l.id < initState.nextId)) ∧
    (secureAPI_once "terminal:data" initState
        = ([.onceCall "terminal:data" initState.nextId],
           .ok (onceState "terminal:data" initState, (none : Option Unsub))) ∧
      ({ channel := "terminal:data", id := initState.nextId,
         isOnce := true } : Listener)
        ∈ (onceState "terminal:data" initState).listeners ∧
      (deliverSeq ["terminal:data", "terminal:data"]
          (onceState "terminal:data" initState)).2.count initState.nextId ≤ 1 ∧
      (deliver "terminal:data"
          (onceState "terminal:data" initState)).1.listeners.countP
        (fun l => l.id == initState.nextId) = 0) :=
  ⟨⟨by decide, by decide⟩,
   once_self_removes_after_first_delivery "terminal:data" initState
     ["terminal:data", "terminal:data"] (by decide) (by decide)⟩

end EdexUI
